import Mathlib

/-
Verification of the telemetry core of the Open-Telemetry Next.js demo
repository: a shallow embedding of the tracing, metrics, logging and
request-wrapping code, with theorems settling the specified properties.
-/

set_option linter.unusedVariables false

namespace Otel

/-- Scalar attribute values attached to spans, metrics and logs. -/
inductive AttrValue
| str (s : String)
| num (n : Nat)
deriving Repr, DecidableEq

/-- A value thrown by JavaScript code: either an Error instance carrying a
message, or any other value (string, plain object, ...) with no message
field. -/
inductive Thrown
| errObj (message : String)
| nonError (tag : String)
deriving Repr, DecidableEq

/-- Whether the thrown value is an instance of Error. -/
def Thrown.isError : Thrown → Bool
| .errObj _ => true
| .nonError _ => false

/-- The message property read off a thrown value (undefined, i.e. none, for
values that are not Error instances). -/
def Thrown.message : Thrown → Option String
| .errObj m => some m
| .nonError _ => none

/-- Span status as written by setStatus; unset until first written. -/
inductive SpanStatus
| unset
| ok
| error (message : Option String)
deriving Repr, DecidableEq

/-- The record of one span as mutated by the instrumented code. -/
structure SpanRecord where
  attributes : List (String × AttrValue) := []
  recordedExceptions : List Thrown := []
  status : SpanStatus := SpanStatus.unset
  endCount : Nat := 0
deriving Repr, DecidableEq

/-- span.setAttribute: appends the pair; reads use last-write-wins lookup. -/
def SpanRecord.setAttribute (s : SpanRecord) (k : String) (v : AttrValue) : SpanRecord :=
  { s with attributes := s.attributes ++ [(k, v)] }

/-- span.setStatus. -/
def SpanRecord.setStatus (s : SpanRecord) (st : SpanStatus) : SpanRecord :=
  { s with status := st }

/-- span.recordException. -/
def SpanRecord.recordException (s : SpanRecord) (e : Thrown) : SpanRecord :=
  { s with recordedExceptions := s.recordedExceptions ++ [e] }

/-- span.end: counts the calls so exactly-once closing is expressible. -/
def endSpan (s : SpanRecord) : SpanRecord :=
  { s with endCount := s.endCount + 1 }

/-- Last-write-wins read of a span attribute. -/
def getAttr (s : SpanRecord) (k : String) : Option AttrValue :=
  s.attributes.reverse.lookup k

/-- Shallow embedding of traceSync (src/src/lib/telemetry/tracer.ts, lines
146-182): the startActiveSpan callback applied to a fresh span created with
the given attributes. fnResult is the outcome of fn(): Except.ok for a
normal return, Except.error for a thrown value. The try block sets status
ok on success; the catch block records the exception and sets status error
only when the thrown value is an instance of Error, then re-throws; the
finally block always ends the span. -/
def traceSync (T : Type) (attrs : List (String × AttrValue)) (fnResult : Except Thrown T) :
    Except Thrown T × SpanRecord :=
  let span : SpanRecord := { attributes := attrs }
  match fnResult with
  | Except.ok r =>
      let span := span.setStatus SpanStatus.ok
      (Except.ok r, endSpan span)
  | Except.error e =>
      let span :=
        if e.isError then
          (span.recordException e).setStatus (SpanStatus.error e.message)
        else span
      (Except.error e, endSpan span)

/-- Shallow embedding of traceAsync (src/src/lib/telemetry/tracer.ts, lines
197-232); structurally identical to traceSync with the awaited outcome of
fn() as fnResult. -/
def traceAsync (T : Type) (attrs : List (String × AttrValue)) (fnResult : Except Thrown T) :
    Except Thrown T × SpanRecord :=
  let span : SpanRecord := { attributes := attrs }
  match fnResult with
  | Except.ok r =>
      let span := span.setStatus SpanStatus.ok
      (Except.ok r, endSpan span)
  | Except.error e =>
      let span :=
        if e.isError then
          (span.recordException e).setStatus (SpanStatus.error e.message)
        else span
      (Except.error e, endSpan span)

/-- The identifiers held by an active span context. -/
structure SpanContext where
  traceId : String
  spanId : String
  traceFlags : Nat
deriving Repr, DecidableEq

/-- The value returned by getTraceContext. -/
structure TraceContext where
  traceId : String
  spanId : String
  traceFlags : Nat
deriving Repr, DecidableEq

/-- Shallow embedding of getTraceContext (src/src/lib/telemetry/tracer.ts,
lines 337-356): the identifiers of the active span when one is active, and
the all-zero sentinel context otherwise; the function is total, so it never
returns null and never throws. -/
def getTraceContext (active : Option SpanContext) : TraceContext :=
  match active with
  | some sc => { traceId := sc.traceId, spanId := sc.spanId, traceFlags := sc.traceFlags }
  | none =>
      { traceId := "00000000000000000000000000000000",
        spanId := "0000000000000000",
        traceFlags := 0 }

/-- A structured log context: an association list where a later entry for the
same key overrides an earlier one, as in a JavaScript object spread. -/
abbrev LogContext := List (String × String)

/-- Read of a log-context field under last-write-wins semantics. -/
def getField (ctx : LogContext) (k : String) : Option String :=
  ctx.reverse.lookup k

/-- Shallow embedding of withTraceContext (src/src/lib/telemetry/logger.ts,
lines 93-106): spreads the caller context and then writes the trace_id and
span_id fields from getTraceContext, overriding any caller entries. -/
def withTraceContext (active : Option SpanContext) (ctx : LogContext) : LogContext :=
  ctx ++ [("trace_id", (getTraceContext active).traceId),
          ("span_id", (getTraceContext active).spanId)]

/-- Log severities of the correlated logger. -/
inductive LogLevel
| debug
| info
| warn
| error
| fatal
deriving Repr, DecidableEq

/-- One emitted log record. -/
structure LogRecord where
  level : LogLevel
  context : LogContext
  message : String
deriving Repr, DecidableEq

/-- Shallow embedding of the leveled Logger methods (src/src/lib/telemetry/
logger.ts): every emission passes the caller context through
withTraceContext before handing the record to the sink. -/
def logEmit (active : Option SpanContext) (level : LogLevel) (ctx : LogContext)
    (msg : String) : LogRecord :=
  { level := level, context := withTraceContext active ctx, message := msg }

/-- Shallow embedding of the level derivation in logHttpResponse
(src/src/lib/telemetry/logger.ts, lines 284-303). -/
def logHttpResponseLevel (statusCode : Nat) : LogLevel :=
  if 500 ≤ statusCode then LogLevel.error
  else if 400 ≤ statusCode then LogLevel.warn
  else LogLevel.info

/-- The recorded measurements of the HTTP metric instruments
(src/src/lib/telemetry/metrics.ts): each list collects the samples added to
one instrument, in order, with their attribute sets. -/
structure MetricsState where
  requestCount : List (List (String × AttrValue)) := []
  requestDuration : List (Nat × List (String × AttrValue)) := []
  errorCount : List (List (String × AttrValue)) := []
  activeRequests : List (Int × List (String × AttrValue)) := []
deriving Repr, DecidableEq

/-- The common attribute set built by recordHttpRequest; http.status_class is
the floor of statusCode / 100 followed by the literal xx. -/
def httpAttributes (method route : String) (statusCode : Nat) : List (String × AttrValue) :=
  [("http.method", AttrValue.str method),
   ("http.route", AttrValue.str route),
   ("http.status_code", AttrValue.num statusCode),
   ("http.status_class", AttrValue.str (toString (statusCode / 100) ++ "xx"))]

/-- Shallow embedding of recordHttpRequest (src/src/lib/telemetry/metrics.ts,
lines 155-186): one sample on the request counter, one on the duration
histogram, and one on the error counter exactly when the status code is at
least 400. -/
def recordHttpRequest (method route : String) (statusCode : Nat) (duration : Nat)
    (m : MetricsState) : MetricsState :=
  let attributes := httpAttributes method route statusCode
  let m := { m with requestCount := m.requestCount ++ [attributes] }
  let m := { m with requestDuration := m.requestDuration ++ [(duration, attributes)] }
  if 400 ≤ statusCode then { m with errorCount := m.errorCount ++ [attributes] } else m

/-- Shallow embedding of incrementActiveRequests: adds a +1 delta sample to
the active-requests up-down-counter. -/
def incrementActiveRequests (attrs : List (String × AttrValue)) (m : MetricsState) :
    MetricsState :=
  { m with activeRequests := m.activeRequests ++ [((1 : Int), attrs)] }

/-- Shallow embedding of decrementActiveRequests: adds a -1 delta sample. -/
def decrementActiveRequests (attrs : List (String × AttrValue)) (m : MetricsState) :
    MetricsState :=
  { m with activeRequests := m.activeRequests ++ [((-1 : Int), attrs)] }

/-- The current value of the active-requests up-down-counter: the sum of all
recorded deltas. -/
def activeRequestsValue (m : MetricsState) : Int :=
  (m.activeRequests.map Prod.fst).sum

/-- The response value returned by a wrapped handler (the status code is the
only part the middleware inspects). -/
structure Response where
  status : Nat
deriving Repr, DecidableEq

/-- The per-invocation inputs of a withTelemetry wrapped handler. -/
structure WtInput where
  name : String
  skipPaths : List String
  customAttributes : List (String × String)
  method : String
  url : String
  path : String
  userAgent : Option String
  params : Option String
deriving Repr, DecidableEq

/-- The attributes the middleware places on the server span at creation. -/
def withTelemetrySpanAttributes (inp : WtInput) : List (String × AttrValue) :=
  [("http.method", AttrValue.str inp.method),
   ("http.url", AttrValue.str inp.url),
   ("http.route", AttrValue.str inp.path),
   ("http.user_agent", AttrValue.str (inp.userAgent.getD ""))]
  ++ inp.customAttributes.map (fun p => (p.1, AttrValue.str p.2))
  ++ (match inp.params with
      | some ps => [("http.route.params", AttrValue.str ps)]
      | none => [])

instance {α β : Type} [DecidableEq α] [DecidableEq β] : DecidableEq (Except α β) := fun a b =>
  match a, b with
  | Except.ok x, Except.ok y =>
      if h : x = y then Decidable.isTrue (by rw [h])
      else Decidable.isFalse (by intro hc; cases hc; exact h rfl)
  | Except.error x, Except.error y =>
      if h : x = y then Decidable.isTrue (by rw [h])
      else Decidable.isFalse (by intro hc; cases hc; exact h rfl)
  | Except.ok _, Except.error _ => Decidable.isFalse (by intro hc; cases hc)
  | Except.error _, Except.ok _ => Decidable.isFalse (by intro hc; cases hc)

/-- The observable outcome of one wrapped invocation. -/
structure WtOutcome where
  result : Except Thrown Response
  span : Option SpanRecord
  metrics : MetricsState
  logs : List (LogLevel × String)
deriving Repr, DecidableEq

/-- Shallow embedding of withTelemetry (src/src/lib/telemetry/middleware.ts,
lines 70-201). If the request path starts with a skip prefix the handler
runs with no telemetry. Otherwise the middleware increments the
active-requests counter, logs the request, opens the server span, and runs
the handler: on a returned response it attaches the status code, sets span
status (error with message HTTP code when at least 400, else ok), records
HTTP metrics and logs the response at the derived level; on a thrown value
it records the exception, sets status error with the message of the thrown
value, records HTTP metrics with a synthetic 500, logs at error level and
re-throws; the finally block always ends the span and decrements the
active-requests counter. handlerResult is the settled outcome of the
handler and duration the observed timer value. -/
def withTelemetry (inp : WtInput) (handlerResult : Except Thrown Response) (duration : Nat)
    (m0 : MetricsState) : WtOutcome :=
  if inp.skipPaths.any (fun sk => inp.path.startsWith sk) then
    { result := handlerResult, span := none, metrics := m0, logs := [] }
  else
    let m1 := incrementActiveRequests [("http.route", AttrValue.str inp.path)] m0
    let logs1 : List (LogLevel × String) := [(LogLevel.info, "HTTP request received")]
    let span0 : SpanRecord := { attributes := withTelemetrySpanAttributes inp }
    match handlerResult with
    | Except.ok response =>
        let statusCode := response.status
        let span1 := span0.setAttribute "http.status_code" (AttrValue.num statusCode)
        let span2 :=
          if 400 ≤ statusCode then
            span1.setStatus (SpanStatus.error (some ("HTTP " ++ toString statusCode)))
          else span1.setStatus SpanStatus.ok
        let m2 := recordHttpRequest inp.method inp.path statusCode duration m1
        let logs2 := logs1 ++ [(logHttpResponseLevel statusCode, "HTTP response sent")]
        let span3 := endSpan span2
        let m3 := decrementActiveRequests [("http.route", AttrValue.str inp.path)] m2
        { result := Except.ok response, span := some span3, metrics := m3, logs := logs2 }
    | Except.error e =>
        let span1 := (span0.recordException e).setStatus (SpanStatus.error e.message)
        let m2 := recordHttpRequest inp.method inp.path 500 duration m1
        let logs2 := logs1 ++ [(LogLevel.error, "Unhandled error in API route")]
        let span3 := endSpan span1
        let m3 := decrementActiveRequests [("http.route", AttrValue.str inp.path)] m2
        { result := Except.error e, span := some span3, metrics := m3, logs := logs2 }

/-- The declared type tag of an ingested client event; other covers any
runtime value that matches none of the switch cases. -/
inductive EventType
| trace
| metric
| log
| other
deriving Repr, DecidableEq

/-- The properties object of a client event, when present. -/
structure EventProps where
  slow : Bool := false
deriving Repr, DecidableEq

/-- One entry of the events array as it arrives at runtime: a null entry, or
an object whose name field is a string (some) or a non-string value (none)
and whose properties field is present or undefined. -/
inductive JsEvent
| vnull
| evt (nameOpt : Option String) (etype : EventType) (props : Option EventProps)
deriving Repr, DecidableEq

/-- The server-side observable state touched by the ingestion handler. -/
structure RouteState where
  eventsReceived : Nat := 0
  webVitals : Nat := 0
  logs : List (LogLevel × String) := []
deriving Repr, DecidableEq

/-- Shallow embedding of processMetricEvent (src/src/app/api/telemetry/
route.ts, lines 93-134). Reading startsWith off a non-string name throws a
TypeError; the web-vital and component-render branches read fields of the
properties object and throw when it is undefined. -/
def processMetricEvent (nameOpt : Option String) (props : Option EventProps)
    (st : RouteState) : Except Thrown RouteState :=
  match nameOpt with
  | none => Except.error (Thrown.errObj "TypeError: name.startsWith is not a function")
  | some name =>
    let step1 : Except Thrown RouteState :=
      if name.startsWith "web_vital_" then
        match props with
        | none => Except.error (Thrown.errObj "TypeError: Cannot read properties of undefined")
        | some _ =>
            Except.ok { st with webVitals := st.webVitals + 1,
                                logs := st.logs ++ [(LogLevel.info, "Web Vital: " ++ name.drop 10)] }
      else Except.ok st
    match step1 with
    | Except.error e => Except.error e
    | Except.ok st1 =>
      let st2 :=
        if name = "navigation_timing" then
          { st1 with logs := st1.logs ++ [(LogLevel.info, "Navigation timing received")] }
        else st1
      if name = "component_render" then
        match props with
        | none => Except.error (Thrown.errObj "TypeError: Cannot read properties of undefined")
        | some p =>
            if p.slow then
              Except.ok { st2 with logs := st2.logs ++ [(LogLevel.warn, "Slow component render detected")] }
            else Except.ok st2
      else Except.ok st2

/-- Shallow embedding of processTraceEvent (src/src/app/api/telemetry/
route.ts, lines 139-154): logs the client event at info level; it never
throws, since spreading an undefined properties object is legal. -/
def processTraceEvent (nameOpt : Option String) (props : Option EventProps)
    (st : RouteState) : Except Thrown RouteState :=
  Except.ok { st with logs := st.logs ++ [(LogLevel.info, "Client event")] }

/-- Shallow embedding of processLogEvent (src/src/app/api/telemetry/route.ts,
lines 159-177): for a client_error event it reads fields of the properties
object, throwing when it is undefined, and logs at error level. -/
def processLogEvent (nameOpt : Option String) (props : Option EventProps)
    (st : RouteState) : Except Thrown RouteState :=
  if nameOpt = some "client_error" then
    match props with
    | none => Except.error (Thrown.errObj "TypeError: Cannot read properties of undefined")
    | some _ =>
        Except.ok { st with logs := st.logs ++ [(LogLevel.error, "Client-side error reported")] }
  else Except.ok st

/-- One iteration of the event loop in handleTelemetry (src/src/app/api/
telemetry/route.ts, lines 64-82): the counter add reads event.type and
event.name, throwing on a null entry, then the switch dispatches on the
event type; a type matching no case is skipped. -/
def processOneEvent (e : JsEvent) (st : RouteState) : Except Thrown RouteState :=
  match e with
  | JsEvent.vnull => Except.error (Thrown.errObj "TypeError: Cannot read properties of null")
  | JsEvent.evt nameOpt etype props =>
    let st := { st with eventsReceived := st.eventsReceived + 1 }
    match etype with
    | EventType.metric => processMetricEvent nameOpt props st
    | EventType.trace => processTraceEvent nameOpt props st
    | EventType.log => processLogEvent nameOpt props st
    | EventType.other => Except.ok st

/-- The event loop of handleTelemetry: sequential, with no per-event error
handling, so the first throwing event aborts the remaining ones. -/
def runEvents : List JsEvent → RouteState → Except Thrown RouteState
| [], st => Except.ok st
| e :: rest, st =>
    match processOneEvent e st with
    | Except.ok st2 => runEvents rest st2
    | Except.error err => Except.error err

/-- Whether processing the event throws, as determined by its shape alone. -/
def eventThrows : JsEvent → Bool
| JsEvent.vnull => true
| JsEvent.evt nameOpt etype props =>
  match etype with
  | EventType.metric =>
    match nameOpt with
    | none => true
    | some name =>
        (name.startsWith "web_vital_" && props.isNone)
          || (name == "component_render" && props.isNone)
  | EventType.log => nameOpt == some "client_error" && props.isNone
  | EventType.trace => false
  | EventType.other => false

/-- The JSON body of a POST to the ingestion endpoint: malformed (the json()
call throws a SyntaxError) or parsed with an optional events field. -/
inductive JsonBody
| malformed
| parsed (eventsOpt : Option (List JsEvent))
deriving Repr, DecidableEq

/-- The success payload of the ingestion endpoint. -/
structure TelemetryResponse where
  success : Bool
  processed : Nat
deriving Repr, DecidableEq

/-- Shallow embedding of handleTelemetry (src/src/app/api/telemetry/route.ts,
lines 54-88): a missing or absent events field defaults to the empty list,
each event is processed in order by the unguarded loop, and on completion
the endpoint responds with success and processed equal to the length of the
events list; a throwing json() call or event propagates as an error. -/
def handleTelemetry (body : JsonBody) (st : RouteState) :
    Except Thrown (TelemetryResponse × RouteState) :=
  match body with
  | JsonBody.malformed => Except.error (Thrown.errObj "SyntaxError: Unexpected end of JSON input")
  | JsonBody.parsed eventsOpt =>
    let events := eventsOpt.getD []
    match runEvents events st with
    | Except.error e => Except.error e
    | Except.ok st2 =>
        Except.ok ({ success := true, processed := events.length }, st2)

/-- The sampling section of TELEMETRY_CONFIG (src/unnamed/part_000, lines
73-77): ratio is 0.1 when NODE_ENV is production and 1.0 otherwise. -/
structure SamplingConfig where
  ratio : ℚ
deriving Repr, DecidableEq

def samplingConfigOf (nodeEnv : String) : SamplingConfig :=
  { ratio := if nodeEnv = "production" then 1 / 10 else 1 }

/-- The batch section of TELEMETRY_CONFIG (src/unnamed/part_000, lines
86-93). -/
structure BatchConfig where
  scheduledDelayMillis : Nat
  maxExportBatchSize : Nat
  maxQueueSize : Nat
deriving Repr, DecidableEq

def telemetryBatchConfig : BatchConfig :=
  { scheduledDelayMillis := 5000, maxExportBatchSize := 512, maxQueueSize := 2048 }

/-- The feature flags of TELEMETRY_CONFIG (src/unnamed/part_000, lines
103-112). -/
structure FeaturesConfig where
  consoleExporter : Bool
  otlpExporter : Bool
  httpInstrumentation : Bool
  fetchInstrumentation : Bool
deriving Repr, DecidableEq

def telemetryFeatures : FeaturesConfig :=
  { consoleExporter := false, otlpExporter := true,
    httpInstrumentation := true, fetchInstrumentation := true }

/-- A span processor passed to the SDK: the OTLP batch processor with its
batch tuning, or the simple console processor. -/
inductive SpanProcessorSpec
| batchOtlp (scheduledDelayMillis maxExportBatchSize maxQueueSize : Nat)
| simpleConsole
deriving Repr, DecidableEq

/-- A sampler option that could be passed to the SDK. -/
inductive SamplerSpec
| traceIdRatioBased (ratio : ℚ)
| parentBasedTraceIdRatio (ratio : ℚ)
| parentBasedAlwaysOn
deriving Repr, DecidableEq

/-- The SDK options relevant to sampling and batching. -/
structure NodeSdkOptions where
  sampler : Option SamplerSpec
  spanProcessors : List SpanProcessorSpec
deriving Repr, DecidableEq

/-- Shallow embedding of the NodeSDK options built by initTelemetry
(src/src/lib/telemetry/logger.ts concatenated instrumentation file, the
NodeSDK construction): the span processors are assembled from the feature
flags with the configured batch tuning, and no sampler option is passed --
the sampling section of TELEMETRY_CONFIG is not referenced anywhere in the
repository. -/
def initTelemetry (features : FeaturesConfig) : NodeSdkOptions :=
  { sampler := none,
    spanProcessors :=
      (if features.otlpExporter then
        [SpanProcessorSpec.batchOtlp telemetryBatchConfig.scheduledDelayMillis
            telemetryBatchConfig.maxExportBatchSize telemetryBatchConfig.maxQueueSize]
       else [])
      ++ (if features.consoleExporter then [SpanProcessorSpec.simpleConsole] else []) }

/-- Modelled from the spec: the sampling decision applied at span creation.
The sampler implementation is not part of this repository (it lives in the
OpenTelemetry SDK); when the SDK receives no sampler option it applies its
documented default, a parent-based always-on sampler: a child inherits the
sampled flag of its parent and a root is always sampled. The ratio-based
specs are included so the decision an explicitly configured sampler would
make is expressible; parentSampled is the sampled flag of the parent
context (none at a trace root) and draw the uniform random draw. -/
def shouldSample (opts : NodeSdkOptions) (parentSampled : Option Bool) (draw : ℚ) : Bool :=
  match opts.sampler with
  | some (SamplerSpec.traceIdRatioBased r) => decide (draw < r)
  | some (SamplerSpec.parentBasedTraceIdRatio r) =>
      match parentSampled with
      | some b => b
      | none => decide (draw < r)
  | some SamplerSpec.parentBasedAlwaysOn =>
      match parentSampled with
      | some b => b
      | none => true
  | none =>
      match parentSampled with
      | some b => b
      | none => true

/-- The sampling decision the specification describes: decided at the trace
root by a uniform draw compared against the configured ratio, and inherited
from the parent everywhere else. -/
def claimedShouldSample (ratio : ℚ) (parentSampled : Option Bool) (draw : ℚ) : Bool :=
  match parentSampled with
  | some b => b
  | none => decide (draw < ratio)

/-- Modelled from the spec: the bounded export queue of the batching span
processor. The processor implementation is not part of this repository (it
lives in the OpenTelemetry SDK); only its configuration in initTelemetry
is. Enqueue of a closed item when the queue already holds maxQueueSize
items drops the newly enqueued item and never grows the queue. -/
def enqueueDrop {α : Type} (maxQueueSize : Nat) (q : List α) (x : α) : List α :=
  if maxQueueSize ≤ q.length then q else q ++ [x]

/-- Modelled from the spec: a flush drains the whole queue as the exported
batch, leaving the queue empty. -/
def flushAll {α : Type} (q : List α) : List α × List α :=
  (q, [])

/-- C4: for every call to traceSync and traceAsync the created span is ended
exactly once on every exit path; the outcome of fn propagates unchanged; on
normal return the span status is set to ok; on a thrown Error the exception
is recorded on the span and the status set to error with the message of the
error before the span record is final. -/
theorem C4_scoped_trace_lifecycle (T : Type) (attrs : List (String × AttrValue))
    (r : Except Thrown T) :
    (traceSync T attrs r).2.endCount = 1 ∧ (traceAsync T attrs r).2.endCount = 1 ∧
    (traceSync T attrs r).1 = r ∧ (traceAsync T attrs r).1 = r ∧
    (∀ v : T, r = Except.ok v →
        (traceSync T attrs r).2.status = SpanStatus.ok ∧
        (traceAsync T attrs r).2.status = SpanStatus.ok) ∧
    (∀ m : String, r = Except.error (Thrown.errObj m) →
        (traceSync T attrs r).2.recordedExceptions = [Thrown.errObj m] ∧
        (traceSync T attrs r).2.status = SpanStatus.error (some m) ∧
        (traceAsync T attrs r).2.recordedExceptions = [Thrown.errObj m] ∧
        (traceAsync T attrs r).2.status = SpanStatus.error (some m)) := by
  rcases r with e | v
  · rcases e with m | tag <;>
      simp [traceSync, traceAsync, endSpan, SpanRecord.setStatus,
        SpanRecord.recordException, Thrown.isError, Thrown.message]
  · simp [traceSync, traceAsync, endSpan, SpanRecord.setStatus]

/-- Witness for C4 at a concrete thrown Error. -/
theorem C4_witness :
    (traceSync Nat [] (Except.error (Thrown.errObj "boom"))).2.status
        = SpanStatus.error (some "boom") ∧
    (traceSync Nat [] (Except.error (Thrown.errObj "boom"))).2.endCount = 1 := by
  have h := C4_scoped_trace_lifecycle Nat [] (Except.error (Thrown.errObj "boom"))
  exact ⟨(h.2.2.2.2.2 "boom" rfl).2.1, h.1⟩

/-- C9: when fn throws a value that is not an instance of Error, traceSync
and traceAsync still end the span exactly once and re-throw the value
unchanged, but record no exception and leave the span status unset. -/
theorem C9_nonError_throw (T : Type) (attrs : List (String × AttrValue)) (tag : String) :
    traceSync T attrs (Except.error (Thrown.nonError tag))
      = (Except.error (Thrown.nonError tag),
         { attributes := attrs, recordedExceptions := [],
           status := SpanStatus.unset, endCount := 1 }) ∧
    traceAsync T attrs (Except.error (Thrown.nonError tag))
      = (Except.error (Thrown.nonError tag),
         { attributes := attrs, recordedExceptions := [],
           status := SpanStatus.unset, endCount := 1 }) :=
  ⟨rfl, rfl⟩

/-- C7: recordHttpRequest at status 404 adds exactly one sample to the
request counter and one to the error counter, both tagged with status class
4xx; at status 200 it adds one request sample and no error sample; in
general the error counter receives a sample exactly when the status code is
at least 400. -/
theorem C7_recordHttpRequest_error_counter (m : MetricsState) (method route : String)
    (d s : Nat) :
    (recordHttpRequest method route 404 d m).requestCount
        = m.requestCount ++ [httpAttributes method route 404] ∧
    (recordHttpRequest method route 404 d m).errorCount
        = m.errorCount ++ [httpAttributes method route 404] ∧
    (httpAttributes method route 404).lookup "http.status_class"
        = some (AttrValue.str "4xx") ∧
    (recordHttpRequest method route 200 d m).requestCount
        = m.requestCount ++ [httpAttributes method route 200] ∧
    (recordHttpRequest method route 200 d m).errorCount = m.errorCount ∧
    (recordHttpRequest method route s d m).errorCount
        = (if 400 ≤ s then m.errorCount ++ [httpAttributes method route s]
           else m.errorCount) := by
  refine ⟨?_, ?_, rfl, ?_, ?_, ?_⟩
  · simp [recordHttpRequest]
  · norm_num [recordHttpRequest]
  · simp [recordHttpRequest]
  · norm_num [recordHttpRequest]
  · by_cases h : 400 ≤ s <;> simp [recordHttpRequest, h]

/-- C10: a POST body without an events field, or with an empty events list,
is treated as an empty batch: the observable state is untouched and the
response is success with processed equal to zero. -/
theorem C10_empty_batch (st : RouteState) :
    handleTelemetry (JsonBody.parsed none) st
        = Except.ok ({ success := true, processed := 0 }, st) ∧
    handleTelemetry (JsonBody.parsed (some [])) st
        = Except.ok ({ success := true, processed := 0 }, st) :=
  ⟨rfl, rfl⟩

/-- C5: with no active span getTraceContext returns the all-zero sentinel
context, never null or an error; consequently every record emitted through
the correlated logger carries trace_id and span_id fields equal to the
identifiers of the active span when one is active, and to the all-zero
sentinel otherwise. -/
theorem C5_trace_context_correlation (sc : SpanContext) (ctx : LogContext)
    (lvl : LogLevel) (msg : String) :
    getTraceContext none
      = { traceId := "00000000000000000000000000000000",
          spanId := "0000000000000000", traceFlags := 0 } ∧
    getTraceContext (some sc)
      = { traceId := sc.traceId, spanId := sc.spanId, traceFlags := sc.traceFlags } ∧
    getField (logEmit (some sc) lvl ctx msg).context "trace_id" = some sc.traceId ∧
    getField (logEmit (some sc) lvl ctx msg).context "span_id" = some sc.spanId ∧
    getField (logEmit none lvl ctx msg).context "trace_id"
      = some "00000000000000000000000000000000" ∧
    getField (logEmit none lvl ctx msg).context "span_id" = some "0000000000000000" := by
  refine ⟨rfl, rfl, ?_, ?_, ?_, ?_⟩ <;>
    simp [logEmit, withTraceContext, getField, getTraceContext, List.lookup]

/-- Helper: recordHttpRequest never touches the active-requests counter. -/
theorem recordHttpRequest_activeRequests (method route : String) (s d : Nat)
    (m : MetricsState) :
    (recordHttpRequest method route s d m).activeRequests = m.activeRequests := by
  by_cases h : 400 ≤ s <;> simp [recordHttpRequest, h]

/-- C1: when the path matches no skip prefix and the wrapped handler throws,
withTelemetry records the exception on the server span, sets the span
status to error with the message of the error, records HTTP request metrics
with a synthetic 500 status, logs at error level, re-throws the same value
unchanged, ends the span exactly once, and the active-requests counter
returns to its pre-call value; the counter preservation holds for every
handler outcome. -/
theorem C1_withTelemetry_thrown_error (inp : WtInput) (msg : String) (d : Nat)
    (m0 : MetricsState)
    (hskip : inp.skipPaths.any (fun sk => inp.path.startsWith sk) = false) :
    (withTelemetry inp (Except.error (Thrown.errObj msg)) d m0).result
        = Except.error (Thrown.errObj msg) ∧
    (∃ s : SpanRecord,
        (withTelemetry inp (Except.error (Thrown.errObj msg)) d m0).span = some s ∧
        s.recordedExceptions = [Thrown.errObj msg] ∧
        s.status = SpanStatus.error (some msg) ∧
        s.endCount = 1) ∧
    (withTelemetry inp (Except.error (Thrown.errObj msg)) d m0).metrics.requestCount
        = m0.requestCount ++ [httpAttributes inp.method inp.path 500] ∧
    (withTelemetry inp (Except.error (Thrown.errObj msg)) d m0).metrics.errorCount
        = m0.errorCount ++ [httpAttributes inp.method inp.path 500] ∧
    (LogLevel.error, "Unhandled error in API route")
        ∈ (withTelemetry inp (Except.error (Thrown.errObj msg)) d m0).logs ∧
    activeRequestsValue (withTelemetry inp (Except.error (Thrown.errObj msg)) d m0).metrics
        = activeRequestsValue m0 ∧
    (∀ hr : Except Thrown Response,
        activeRequestsValue (withTelemetry inp hr d m0).metrics
          = activeRequestsValue m0) := by
  refine ⟨?_, ?_, ?_, ?_, ?_, ?_, ?_⟩
  · simp [withTelemetry, hskip]
  · refine ⟨{ attributes := withTelemetrySpanAttributes inp,
              recordedExceptions := [Thrown.errObj msg],
              status := SpanStatus.error (some msg),
              endCount := 1 }, ?_, rfl, rfl, rfl⟩
    simp [withTelemetry, hskip, SpanRecord.recordException, SpanRecord.setStatus, endSpan,
      Thrown.message]
  · simp [withTelemetry, hskip, recordHttpRequest, incrementActiveRequests,
      decrementActiveRequests]
  · norm_num [withTelemetry, hskip, recordHttpRequest, incrementActiveRequests,
      decrementActiveRequests]
  · simp [withTelemetry, hskip]
  · simp [withTelemetry, hskip, activeRequestsValue, recordHttpRequest_activeRequests,
      incrementActiveRequests, decrementActiveRequests]
  · intro hr
    rcases hr with e | resp <;>
      simp [withTelemetry, hskip, activeRequestsValue, recordHttpRequest_activeRequests,
        incrementActiveRequests, decrementActiveRequests]

/-- Witness for C1 at a concrete request and thrown Error. -/
theorem C1_witness :
    (withTelemetry
        { name := "GET /api/users", skipPaths := [], customAttributes := [],
          method := "GET", url := "http://localhost/api/users", path := "/api/users",
          userAgent := none, params := none }
        (Except.error (Thrown.errObj "boom")) 3 {}).result
      = Except.error (Thrown.errObj "boom") ∧
    activeRequestsValue
        (withTelemetry
          { name := "GET /api/users", skipPaths := [], customAttributes := [],
            method := "GET", url := "http://localhost/api/users", path := "/api/users",
            userAgent := none, params := none }
          (Except.error (Thrown.errObj "boom")) 3 {}).metrics
      = activeRequestsValue {} := by
  have h := C1_withTelemetry_thrown_error
    { name := "GET /api/users", skipPaths := [], customAttributes := [],
      method := "GET", url := "http://localhost/api/users", path := "/api/users",
      userAgent := none, params := none } "boom" 3 {} rfl
  exact ⟨h.1, h.2.2.2.2.2.1⟩

/-- C6: on a returned response with status s the middleware attaches s to the
span as http.status_code; the span status is error with message HTTP s
exactly when s is at least 400 and ok otherwise; and the response is logged
at error level for s at least 500, warn level for s between 400 and 499,
and info level otherwise. -/
theorem C6_withTelemetry_response_status (inp : WtInput) (status d : Nat)
    (m0 : MetricsState)
    (hskip : inp.skipPaths.any (fun sk => inp.path.startsWith sk) = false) :
    ∃ s : SpanRecord,
      (withTelemetry inp (Except.ok { status := status }) d m0).span = some s ∧
      getAttr s "http.status_code" = some (AttrValue.num status) ∧
      (s.status = SpanStatus.error (some ("HTTP " ++ toString status)) ↔ 400 ≤ status) ∧
      (status < 400 → s.status = SpanStatus.ok) ∧
      (withTelemetry inp (Except.ok { status := status }) d m0).logs
        = [(LogLevel.info, "HTTP request received"),
           (logHttpResponseLevel status, "HTTP response sent")] ∧
      (500 ≤ status → logHttpResponseLevel status = LogLevel.error) ∧
      (400 ≤ status → status < 500 → logHttpResponseLevel status = LogLevel.warn) ∧
      (status < 400 → logHttpResponseLevel status = LogLevel.info) := by
  by_cases h4 : 400 ≤ status
  · refine ⟨{ attributes := withTelemetrySpanAttributes inp
                ++ [("http.status_code", AttrValue.num status)],
              recordedExceptions := [],
              status := SpanStatus.error (some ("HTTP " ++ toString status)),
              endCount := 1 }, ?_, ?_, ?_, ?_, ?_, ?_, ?_, ?_⟩
    · simp [withTelemetry, hskip, h4, SpanRecord.setAttribute, SpanRecord.setStatus, endSpan]
    · simp [getAttr, List.lookup]
    · simp [h4]
    · intro hlt; omega
    · simp [withTelemetry, hskip]
    · intro h5; simp [logHttpResponseLevel, h5]
    · intro h4b h5
      have h5n : ¬ 500 ≤ status := by omega
      simp [logHttpResponseLevel, h5n, h4]
    · intro hlt; omega
  · refine ⟨{ attributes := withTelemetrySpanAttributes inp
                ++ [("http.status_code", AttrValue.num status)],
              recordedExceptions := [],
              status := SpanStatus.ok,
              endCount := 1 }, ?_, ?_, ?_, ?_, ?_, ?_, ?_, ?_⟩
    · simp [withTelemetry, hskip, h4, SpanRecord.setAttribute, SpanRecord.setStatus, endSpan]
    · simp [getAttr, List.lookup]
    · simp [h4]
    · intro hlt; rfl
    · simp [withTelemetry, hskip]
    · intro h5; omega
    · intro h4b h5; omega
    · intro hlt
      have h5n : ¬ 500 ≤ status := by omega
      simp [logHttpResponseLevel, h5n, h4]

/-- Witness for C6 at a concrete 404 response. -/
theorem C6_witness :
    ∃ s : SpanRecord,
      (withTelemetry
          { name := "GET /api/users", skipPaths := [], customAttributes := [],
            method := "GET", url := "http://localhost/api/users", path := "/api/users",
            userAgent := none, params := none }
          (Except.ok { status := 404 }) 3 {}).span = some s ∧
      s.status = SpanStatus.error (some "HTTP 404") := by
  obtain ⟨s, hs, hattr, hiff, hok, hlogs, he, hw, hi⟩ := C6_withTelemetry_response_status
    { name := "GET /api/users", skipPaths := [], customAttributes := [],
      method := "GET", url := "http://localhost/api/users", path := "/api/users",
      userAgent := none, params := none } 404 3 {} rfl
  exact ⟨s, hs, hiff.mpr (by norm_num)⟩

set_option maxHeartbeats 1000000 in
/-- Helper: processing an event succeeds exactly when its shape is benign. -/
theorem processOneEvent_ok_iff (e : JsEvent) (st : RouteState) :
    (∃ st2, processOneEvent e st = Except.ok st2) ↔ eventThrows e = false := by
  rcases e with _ | ⟨nameOpt, etype, props⟩
  · simp [processOneEvent, eventThrows]
  · cases etype with
    | metric =>
      rcases nameOpt with _ | name
      · simp only [processOneEvent]
        unfold processMetricEvent
        dsimp only
        simp [eventThrows]
      · rcases props with _ | p
        · cases hw : name.startsWith "web_vital_" <;>
            by_cases hc : name = "component_render" <;>
            (simp only [processOneEvent]
             unfold processMetricEvent
             dsimp only
             rw [hw]
             simp [eventThrows, hw, hc])
        · cases hw : name.startsWith "web_vital_" <;>
            by_cases hc : name = "component_render" <;>
            cases hp : p.slow <;>
            (simp only [processOneEvent]
             unfold processMetricEvent
             dsimp only
             rw [hw]
             simp [eventThrows, hw, hc, hp])
    | trace => simp [processOneEvent, processTraceEvent, eventThrows]
    | log =>
      by_cases hn : nameOpt = some "client_error"
      · rcases props with _ | p <;>
          simp [processOneEvent, processLogEvent, eventThrows, hn]
      · simp [processOneEvent, processLogEvent, eventThrows, hn]
    | other => simp [processOneEvent, eventThrows]

/-- Helper: the event loop succeeds exactly when every event is benign. -/
theorem runEvents_ok_iff (events : List JsEvent) :
    ∀ st : RouteState,
      (∃ st2, runEvents events st = Except.ok st2)
        ↔ ∀ e ∈ events, eventThrows e = false := by
  induction events with
  | nil => intro st; simp [runEvents]
  | cons e rest ih =>
      intro st
      constructor
      · rintro ⟨st2, h⟩
        cases hpe : processOneEvent e st with
        | error err =>
            rw [runEvents, hpe] at h
            cases h
        | ok st1 =>
            rw [runEvents, hpe] at h
            intro x hx
            rcases List.mem_cons.mp hx with rfl | hx2
            · exact (processOneEvent_ok_iff x st).mp ⟨st1, hpe⟩
            · exact (ih st1).mp ⟨st2, h⟩ x hx2
      · intro hall
        obtain ⟨st1, hpe⟩ := (processOneEvent_ok_iff e st).mpr (hall e (List.mem_cons_self e rest))
        obtain ⟨st2, h2⟩ := (ih st1).mpr (fun x hx => hall x (List.mem_cons_of_mem e hx))
        refine ⟨st2, ?_⟩
        rw [runEvents, hpe]
        exact h2

/-- C3 counterexample: a batch whose first event has a non-string name and
type metric makes the loop throw a TypeError, aborting the remaining well
formed event; the endpoint does not produce a success payload with
processed equal to the two events received. -/
theorem C3_counterexample :
    handleTelemetry
        (JsonBody.parsed (some
          [JsEvent.evt none EventType.metric none,
           JsEvent.evt (some "cart_click") EventType.trace (some {})]))
        {}
      = Except.error (Thrown.errObj "TypeError: name.startsWith is not a function") ∧
    (handleTelemetry
        (JsonBody.parsed (some
          [JsEvent.evt none EventType.metric none,
           JsEvent.evt (some "cart_click") EventType.trace (some {})]))
        {}).isOk = false :=
  ⟨rfl, rfl⟩

/-- C3 amended: the handler guards only against a missing events field; a
malformed body propagates the JSON parse error, and the events of a parsed
batch are processed sequentially with no per-event error handling, so the
batch yields the success payload with processed equal to the number of
events exactly when every event in it processes without throwing. -/
theorem C3_event_processing_aborts (events : List JsEvent) (st : RouteState) :
    handleTelemetry JsonBody.malformed st
        = Except.error (Thrown.errObj "SyntaxError: Unexpected end of JSON input") ∧
    ((∃ st2, handleTelemetry (JsonBody.parsed (some events)) st
        = Except.ok ({ success := true, processed := events.length }, st2))
      ↔ ∀ e ∈ events, eventThrows e = false) := by
  refine ⟨rfl, ?_⟩
  constructor
  · rintro ⟨st2, h⟩
    apply (runEvents_ok_iff events st).mp
    cases hre : runEvents events st with
    | error err => simp [handleTelemetry, hre] at h
    | ok st3 => exact ⟨st3, rfl⟩
  · intro hall
    obtain ⟨st2, hre⟩ := (runEvents_ok_iff events st).mpr hall
    exact ⟨st2, by simp [handleTelemetry, hre]⟩

/-- Witness for C3 amended at a concrete benign batch. -/
theorem C3_witness :
    ∃ st2, handleTelemetry
        (JsonBody.parsed (some [JsEvent.evt (some "cart_click") EventType.trace (some {})]))
        {}
      = Except.ok ({ success := true, processed := 1 }, st2) :=
  (C3_event_processing_aborts
    [JsEvent.evt (some "cart_click") EventType.trace (some {})] {}).2.mpr (by decide)

/-- C2: the NodeSDK options built by initTelemetry carry no sampler, so the
effective sampling decision is the SDK default: every trace root is sampled
regardless of the configured ratio, while descendants inherit the decision
of their parent. At the production ratio of one tenth and a uniform draw of
one half the decision the specification describes is false, yet the
program samples the root: the configured sampling ratio is dead
configuration, never wired into the SDK. -/
theorem C2_sampling_config_ignored :
    (initTelemetry telemetryFeatures).sampler = none ∧
    (∀ draw : ℚ, shouldSample (initTelemetry telemetryFeatures) none draw = true) ∧
    shouldSample (initTelemetry telemetryFeatures) none (1 / 2) = true ∧
    claimedShouldSample (samplingConfigOf "production").ratio none (1 / 2) = false ∧
    (∀ (b : Bool) (draw : ℚ),
        shouldSample (initTelemetry telemetryFeatures) (some b) draw = b) := by
  refine ⟨rfl, fun draw => rfl, rfl, ?_, fun b draw => rfl⟩
  simp only [claimedShouldSample, samplingConfigOf, if_pos rfl, decide_eq_false_iff_not,
    not_lt]
  norm_num

/-- Helper: the length of the queue after folding enqueues over it. -/
theorem enqueueDrop_foldl_length {α : Type} (n : Nat) :
    ∀ (items q : List α), q.length ≤ n →
      (items.foldl (enqueueDrop n) q).length = min (q.length + items.length) n := by
  intro items
  induction items with
  | nil =>
      intro q hq
      simp
      omega
  | cons x xs ih =>
      intro q hq
      rw [List.foldl_cons]
      by_cases h : n ≤ q.length
      · rw [show enqueueDrop n q x = q from by simp [enqueueDrop, h]]
        rw [ih q hq]
        simp only [List.length_cons]
        omega
      · rw [show enqueueDrop n q x = q ++ [x] from by simp [enqueueDrop, h]]
        rw [ih (q ++ [x]) (by simp; omega)]
        simp only [List.length_append, List.length_cons, List.length_nil]
        omega

/-- C8: the export queue never grows beyond maxQueueSize; an enqueue on a
full queue drops the newly enqueued item and returns the queue unchanged
(never blocking the producer); and enqueuing maxQueueSize plus one items
into an empty queue yields a flushed batch of exactly maxQueueSize items.
initTelemetry wires exactly this maxQueueSize, 2048, into the batch span
processor. -/
theorem C8_queue_overflow (α : Type) (items : List α)
    (hlen : items.length = telemetryBatchConfig.maxQueueSize + 1) :
    (∀ (q : List α) (x : α),
        q.length ≤ telemetryBatchConfig.maxQueueSize →
        (enqueueDrop telemetryBatchConfig.maxQueueSize q x).length
          ≤ telemetryBatchConfig.maxQueueSize) ∧
    (∀ (q : List α) (x : α),
        telemetryBatchConfig.maxQueueSize ≤ q.length →
        enqueueDrop telemetryBatchConfig.maxQueueSize q x = q) ∧
    (flushAll (items.foldl (enqueueDrop telemetryBatchConfig.maxQueueSize) [])).1.length
        = telemetryBatchConfig.maxQueueSize ∧
    (initTelemetry telemetryFeatures).spanProcessors
        = [SpanProcessorSpec.batchOtlp 5000 512 2048] := by
  refine ⟨?_, ?_, ?_, rfl⟩
  · intro q x hq
    by_cases h : telemetryBatchConfig.maxQueueSize ≤ q.length
    · rw [show enqueueDrop telemetryBatchConfig.maxQueueSize q x = q from by
        simp [enqueueDrop, h]]
      exact hq
    · rw [show enqueueDrop telemetryBatchConfig.maxQueueSize q x = q ++ [x] from by
        simp [enqueueDrop, h]]
      simp only [List.length_append, List.length_cons, List.length_nil]
      omega
  · intro q x hq
    simp [enqueueDrop, hq]
  · have h := enqueueDrop_foldl_length telemetryBatchConfig.maxQueueSize items []
      (by simp)
    simp only [flushAll]
    rw [h, hlen]
    simp [telemetryBatchConfig]

/-- Witness for C8 at a concrete overfull sequence of 2049 items. -/
theorem C8_witness :
    (List.replicate 2049 (0 : Nat)).length = telemetryBatchConfig.maxQueueSize + 1 ∧
    (flushAll ((List.replicate 2049 (0 : Nat)).foldl
        (enqueueDrop telemetryBatchConfig.maxQueueSize) [])).1.length
      = telemetryBatchConfig.maxQueueSize := by
  have hlen : (List.replicate 2049 (0 : Nat)).length
      = telemetryBatchConfig.maxQueueSize + 1 := by
    rw [List.length_replicate]
    norm_num [telemetryBatchConfig]
  exact ⟨hlen, (C8_queue_overflow Nat (List.replicate 2049 0) hlen).2.2.1⟩

end Otel
